import Mathlib

/-!
Shallow embedding of the dog-image web server (src/server.js).

The data store (two Mongo collections) is modelled as explicit lists with a
fresh-id counter; the express session is a record; each route handler is a
pure function from request data and state to new state and a `Response`.
Store and upstream failures are injected through explicit parameters,
mirroring the single try/catch of each handler.
-/

namespace DogServer

/-- Model of JavaScript String.prototype.trim: strip leading and trailing
whitespace. Stated on the character list so the kernel can evaluate it. -/
def jsTrim (s : String) : String :=
  ⟨((s.data.dropWhile Char.isWhitespace).reverse.dropWhile Char.isWhitespace).reverse⟩

/-- Model of JavaScript String.prototype.toLowerCase, on the character list. -/
def jsToLower (s : String) : String :=
  ⟨s.data.map Char.toLower⟩

/-- A record of the `User` collection (mongoose `userSchema`). -/
structure User where
  id : Nat
  username : String
  createdAt : Nat
  deriving DecidableEq, Repr

/-- A record of the `Image` collection (mongoose `imageSchema`):
an image saved by a user. -/
structure Image where
  user : Nat
  imageUrl : String
  savedAt : Nat
  deriving DecidableEq, Repr

/-- The user object stored into the session by POST /login. -/
structure SessionUser where
  id : Nat
  username : String
  deriving DecidableEq, Repr

/-- The per-browser express session: the fields server.js reads and writes. -/
structure Session where
  user : Option SessionUser := none
  currentImage : Option String := none
  deriving DecidableEq, Repr

/-- The document store: the two collections plus a fresh-id counter
standing in for Mongo object-id generation. -/
structure Store where
  users : List User
  images : List Image
  nextId : Nat
  deriving DecidableEq, Repr

/-- The data context handed to res.render: the union of the fields the
handlers pass (currentImage and error for login/home, images for saved). -/
structure RenderCtx where
  currentImage : Option String := none
  error : Option String := none
  images : List Image := []
  deriving DecidableEq, Repr

/-- An HTTP response produced by a handler: a redirect or a rendered view. -/
inductive Response where
  | redirect (location : String)
  | render (view : String) (ctx : RenderCtx)
  deriving DecidableEq, Repr

/-- HTTP status of a response: res.redirect sends 302, res.render sends 200. -/
def status : Response → Nat
  | .redirect _ => 302
  | .render _ _ => 200

/-- The requireLogin middleware: when the session holds no user, answer a
redirect to /login; otherwise none, meaning fall through to the handler. -/
def requireLogin (sess : Session) : Option Response :=
  if sess.user.isNone then some (.redirect "/login") else none

/-- POST /login. bodyUsername is req.body.username (none when the field is
absent). storeFail injects a store error thrown by User.findOne or
User.create inside the try block; the catch re-renders the login view. -/
def postLogin (now : Nat) (storeFail : Bool) (bodyUsername : Option String)
    (st : Store) (sess : Session) : Store × Session × Response :=
  let username := jsTrim (bodyUsername.getD "")
  if username = "" then
    (st, sess, .render "login" { error := some "Username is required." })
  else if storeFail then
    (st, sess, .render "login" { error := some "Something went wrong. Try again." })
  else
    match st.users.find? (fun u => u.username == username) with
    | some u =>
        (st, { sess with user := some ⟨u.id, u.username⟩ }, .redirect "/home")
    | none =>
        let u : User := ⟨st.nextId, username, now⟩
        ({ st with users := st.users ++ [u], nextId := st.nextId + 1 },
         { sess with user := some ⟨u.id, u.username⟩ },
         .redirect "/home")

/-- The GET /home handler body: renders the session's current image. -/
def getHomeHandler (sess : Session) : Response :=
  .render "home" { currentImage := sess.currentImage }

/-- GET /home behind the requireLogin gate. -/
def getHome (sess : Session) : Response :=
  match requireLogin sess with
  | some r => r
  | none => getHomeHandler sess

/-- Outcome of the upstream fetch of the dog API, as the handler can
observe it: the fetch rejecting, response.ok being false, response.json()
throwing, or a parsed JSON body whose message field may be absent. -/
inductive FetchResult where
  | networkError
  | badStatus
  | malformedBody
  | jsonBody (message : Option String)
  deriving DecidableEq, Repr

/-- Whether the fetch outcome lands in the catch branch of GET /random. -/
def FetchResult.failed : FetchResult → Bool
  | .jsonBody _ => false
  | _ => true

/-- The GET /random handler body: on a parsed body, store data.message in
the session and render it; on any failure, render the error message and
leave the session alone. -/
def getRandomHandler (fr : FetchResult) (sess : Session) : Session × Response :=
  match fr with
  | .jsonBody message =>
      ({ sess with currentImage := message },
       .render "home" { currentImage := message })
  | _ =>
      (sess, .render "home"
        { currentImage := none,
          error := some "Could not load image. Please try again." })

/-- GET /random behind the requireLogin gate. -/
def getRandom (fr : FetchResult) (sess : Session) : Session × Response :=
  match requireLogin sess with
  | some r => (sess, r)
  | none => getRandomHandler fr sess

/-- JavaScript truthiness of a possibly-absent form/session string:
undefined and the empty string are falsy. -/
def jsTruthy : Option String → Bool
  | none => false
  | some s => !(s == "")

/-- The JavaScript expression a \x7c\x7c b on possibly-absent strings. -/
def jsOr (a b : Option String) : Option String :=
  if jsTruthy a then a else b

/-- The POST /save handler body. The resolved URL is
req.body.imageUrl falling back to req.session.currentImage; a falsy
result redirects home with no write. Reading req.session.user.id and
Image.create both sit inside the try block, so a missing session user or
a store failure (storeFail) lands in the catch, which redirects home. -/
def postSaveHandler (now : Nat) (storeFail : Bool) (bodyImageUrl : Option String)
    (st : Store) (sess : Session) : Store × Response :=
  match jsOr bodyImageUrl sess.currentImage with
  | none => (st, .redirect "/home")
  | some u =>
      if u = "" then (st, .redirect "/home")
      else
        match sess.user with
        | none => (st, .redirect "/home")
        | some su =>
            if storeFail then (st, .redirect "/home")
            else ({ st with images := st.images ++ [⟨su.id, u, now⟩] },
                  .redirect "/saved")

/-- POST /save behind the requireLogin gate. -/
def postSave (now : Nat) (storeFail : Bool) (bodyImageUrl : Option String)
    (st : Store) (sess : Session) : Store × Response :=
  match requireLogin sess with
  | some r => (st, r)
  | none => postSaveHandler now storeFail bodyImageUrl st sess

/-- The descending-save-time order used by the sort spec savedAt: -1. -/
def savedAtGE (a b : Image) : Prop := b.savedAt ≤ a.savedAt

instance : DecidableRel savedAtGE :=
  fun a b => inferInstanceAs (Decidable (b.savedAt ≤ a.savedAt))

instance : IsTotal Image savedAtGE :=
  ⟨fun a b => Nat.le_total b.savedAt a.savedAt⟩

instance : IsTrans Image savedAtGE :=
  ⟨fun _ _ _ hab hbc => Nat.le_trans hbc hab⟩

/-- Sorting a list of images by save time descending, the order
Image.find(...).sort(\x7b savedAt: -1 \x7d) returns. -/
def sortSavedDesc (l : List Image) : List Image :=
  List.insertionSort savedAtGE l

/-- The GET /saved handler body. Reading req.session.user.id and the query
both sit inside the try block, so either failure renders an empty list. -/
def getSavedHandler (storeFail : Bool) (st : Store) (sess : Session) : Response :=
  match sess.user with
  | none => .render "saved" { images := [] }
  | some su =>
      if storeFail then .render "saved" { images := [] }
      else .render "saved"
        { images := sortSavedDesc (st.images.filter (fun i => i.user == su.id)) }

/-- GET /saved behind the requireLogin gate. -/
def getSaved (storeFail : Bool) (st : Store) (sess : Session) : Response :=
  match requireLogin sess with
  | some r => r
  | none => getSavedHandler storeFail st sess

/-- The side effects the stop branch of the CLI performs, in order:
rl.close(), then server.close(), then (in its callback)
mongoose.connection.close(), then (in its callback) process.exit(0). -/
inductive ShutdownAction where
  | readlineClose
  | serverClose
  | dbClose
  | exitZero
  deriving DecidableEq, Repr

/-- The two states of the lifecycle controller. -/
inductive CliPhase where
  | running
  | shuttingDown
  deriving DecidableEq, Repr

/-- What one line event of the readline interface produces: the next
phase, what was printed, whether the prompt was shown again, and the
shutdown actions performed in order. -/
structure CliOut where
  phase : CliPhase
  printed : Option String
  reprompted : Bool
  actions : List ShutdownAction
  deriving DecidableEq, Repr

/-- One step of the rl.on line handler in openCli. The nested callbacks of
server.close and mongoose.connection.close sequence the shutdown actions:
the exit only runs inside the db-close callback, which only runs inside
the server-close callback. -/
def cliStep (line : String) : CliOut :=
  let cmd := jsToLower (jsTrim line)
  if cmd = "stop" then
    { phase := .shuttingDown,
      printed := some "Shutting down the server",
      reprompted := false,
      actions := [.readlineClose, .serverClose, .dbClose, .exitZero] }
  else if cmd.length > 0 then
    { phase := .running,
      printed := some ("Invalid command: " ++ cmd),
      reprompted := true,
      actions := [] }
  else
    { phase := .running, printed := none, reprompted := true, actions := [] }

/-- A string other than the empty string has positive length. -/
theorem length_pos_of_ne_empty {s : String} (h : s ≠ "") : 0 < s.length := by
  cases s with
  | mk data =>
    cases data with
    | nil => exact absurd rfl h
    | cons c cs => simp [String.length]

/-- C1: for every protected route (GET /home, GET /random, POST /save,
GET /saved), a session without a user gets a 302 redirect to /login and the
handler is not invoked (store and session are left unchanged), while with a
session user present the gate performs no redirect and the route behaves
exactly as its handler. -/
theorem loginGate_spec (sess : Session) (st : Store) (fr : FetchResult)
    (now : Nat) (storeFail : Bool) (body : Option String) :
    (sess.user = none →
      getHome sess = .redirect "/login" ∧
      getRandom fr sess = (sess, .redirect "/login") ∧
      postSave now storeFail body st sess = (st, .redirect "/login") ∧
      getSaved storeFail st sess = .redirect "/login" ∧
      status (.redirect "/login") = 302) ∧
    (∀ su : SessionUser, sess.user = some su →
      getHome sess = getHomeHandler sess ∧
      getRandom fr sess = getRandomHandler fr sess ∧
      postSave now storeFail body st sess = postSaveHandler now storeFail body st sess ∧
      getSaved storeFail st sess = getSavedHandler storeFail st sess) := by
  constructor
  · intro h
    simp [getHome, getRandom, postSave, getSaved, requireLogin, h, status]
  · intro su h
    simp [getHome, getRandom, postSave, getSaved, requireLogin, h]

/-- C1 witness: the gate at a concrete logged-out and a concrete logged-in
session. -/
theorem loginGate_spec_witness :
    getHome { user := none, currentImage := none } = .redirect "/login" ∧
    getHome { user := some ⟨0, "alice"⟩, currentImage := none } =
      getHomeHandler { user := some ⟨0, "alice"⟩, currentImage := none } :=
  ⟨((loginGate_spec { user := none, currentImage := none }
      ⟨[], [], 0⟩ .networkError 0 false none).1 rfl).1,
   ((loginGate_spec { user := some ⟨0, "alice"⟩, currentImage := none }
      ⟨[], [], 0⟩ .networkError 0 false none).2 ⟨0, "alice"⟩ rfl).1⟩

/-- C3: a POST /login whose username is empty or whitespace-only after
trimming (including an absent field) re-renders the login view with an
error message at HTTP 200 and changes neither the store nor the session. -/
theorem postLogin_blank_username (now : Nat) (storeFail : Bool)
    (bodyUsername : Option String) (st : Store) (sess : Session)
    (h : jsTrim (bodyUsername.getD "") = "") :
    postLogin now storeFail bodyUsername st sess =
      (st, sess, .render "login" { error := some "Username is required." }) ∧
    status (.render "login" { error := some "Username is required." }) = 200 := by
  refine ⟨?_, rfl⟩
  simp [postLogin, h]

/-- C3 witness: a whitespace-only username and an absent username field. -/
theorem postLogin_blank_username_witness :
    postLogin 5 false (some "   ") ⟨[], [], 0⟩ { user := none, currentImage := none } =
      (⟨[], [], 0⟩, { user := none, currentImage := none },
       .render "login" { error := some "Username is required." }) ∧
    postLogin 5 false none ⟨[], [], 0⟩ { user := none, currentImage := none } =
      (⟨[], [], 0⟩, { user := none, currentImage := none },
       .render "login" { error := some "Username is required." }) :=
  ⟨(postLogin_blank_username 5 false (some "   ") ⟨[], [], 0⟩
      { user := none, currentImage := none } (by decide)).1,
   (postLogin_blank_username 5 false none ⟨[], [], 0⟩
      { user := none, currentImage := none } (by decide)).1⟩

/-- C10: a GET /random whose upstream body parses as JSON but lacks the
message field is treated as a success: the session's current image is
overwritten with the absent field value and the home view is rendered with
no image and no error message. -/
theorem getRandom_missing_message_field (sess : Session) (su : SessionUser)
    (hu : sess.user = some su) :
    getRandom (.jsonBody none) sess =
      ({ sess with currentImage := none }, .render "home" { currentImage := none }) ∧
    (FetchResult.jsonBody none).failed = false :=
  ⟨by simp [getRandom, requireLogin, hu, getRandomHandler], rfl⟩

/-- C10 witness: a logged-in session whose previously stored image URL is
overwritten by the absent field. -/
theorem getRandom_missing_message_field_witness :
    getRandom (.jsonBody none) { user := some ⟨1, "alice"⟩, currentImage := some "old" } =
      ({ user := some ⟨1, "alice"⟩, currentImage := none },
       .render "home" { currentImage := none }) :=
  (getRandom_missing_message_field
    { user := some ⟨1, "alice"⟩, currentImage := some "old" } ⟨1, "alice"⟩ rfl).1

/-- C4: a GET /random on which the upstream call fails (network error,
non-success status, or malformed body) renders the home view with no image
and a non-empty error message at HTTP 200, and returns the session
unchanged, so the stored image URL is what it was before the call. -/
theorem getRandom_upstream_failure (fr : FetchResult) (sess : Session)
    (su : SessionUser) (hu : sess.user = some su) (hf : fr.failed = true) :
    getRandom fr sess =
      (sess, .render "home"
        { currentImage := none,
          error := some "Could not load image. Please try again." }) ∧
    "Could not load image. Please try again." ≠ "" ∧
    status (.render "home"
      { currentImage := none,
        error := some "Could not load image. Please try again." }) = 200 := by
  refine ⟨?_, by decide, rfl⟩
  cases fr <;> simp_all [getRandom, requireLogin, getRandomHandler, FetchResult.failed]

/-- C4 witness: a simulated network error against a logged-in session with
a stored image URL, which survives the failing call. -/
theorem getRandom_upstream_failure_witness :
    getRandom .networkError { user := some ⟨1, "alice"⟩, currentImage := some "k" } =
      ({ user := some ⟨1, "alice"⟩, currentImage := some "k" },
       .render "home"
         { currentImage := none,
           error := some "Could not load image. Please try again." }) :=
  (getRandom_upstream_failure .networkError
    { user := some ⟨1, "alice"⟩, currentImage := some "k" } ⟨1, "alice"⟩ rfl rfl).1

/-- C6: a POST /save by a logged-in user with no resolvable image URL (the
form field absent or empty, and no last-fetched URL in the session) writes
nothing to the store and redirects to /home. -/
theorem postSave_no_resolvable_url (now : Nat) (storeFail : Bool)
    (bodyImageUrl : Option String) (st : Store) (sess : Session)
    (su : SessionUser) (hu : sess.user = some su)
    (hb : bodyImageUrl = none ∨ bodyImageUrl = some "")
    (hc : sess.currentImage = none) :
    postSave now storeFail bodyImageUrl st sess = (st, .redirect "/home") := by
  rcases hb with hb | hb <;>
    simp [postSave, requireLogin, hu, postSaveHandler, jsOr, jsTruthy, hb, hc]

/-- C6 witness: an absent form field and no session URL. -/
theorem postSave_no_resolvable_url_witness :
    postSave 9 false none ⟨[], [], 0⟩ { user := some ⟨2, "bob"⟩, currentImage := none } =
      (⟨[], [], 0⟩, .redirect "/home") :=
  postSave_no_resolvable_url 9 false none ⟨[], [], 0⟩
    { user := some ⟨2, "bob"⟩, currentImage := none } ⟨2, "bob"⟩ rfl (Or.inl rfl) rfl

/-- C7: a POST /login with a non-empty trimmed username on which the store
lookup or create throws is caught: the login view is re-rendered with a
generic error message and neither store nor session changes, so a session
that held no user still holds none. -/
theorem postLogin_store_error (now : Nat) (bodyUsername : Option String)
    (st : Store) (sess : Session) (hne : jsTrim (bodyUsername.getD "") ≠ "") :
    postLogin now true bodyUsername st sess =
      (st, sess, .render "login" { error := some "Something went wrong. Try again." }) ∧
    (sess.user = none → (postLogin now true bodyUsername st sess).2.1.user = none) := by
  have h : postLogin now true bodyUsername st sess =
      (st, sess, .render "login" { error := some "Something went wrong. Try again." }) := by
    simp [postLogin, hne]
  exact ⟨h, fun hn => by rw [h]; exact hn⟩

/-- C7 witness: a store failure during the login of alice on a fresh
session leaves the session without a user. -/
theorem postLogin_store_error_witness :
    postLogin 3 true (some "alice") ⟨[], [], 0⟩ { user := none, currentImage := none } =
      (⟨[], [], 0⟩, { user := none, currentImage := none },
       .render "login" { error := some "Something went wrong. Try again." }) :=
  (postLogin_store_error 3 (some "alice") ⟨[], [], 0⟩
    { user := none, currentImage := none } (by decide)).1

/-- C9: POST /save neither trims nor validates the submitted URL: any
non-empty submitted string, whitespace-only included, is saved verbatim as
the record's imageUrl, and the fallback to the session's last-fetched URL
happens exactly when the field is absent or the empty string. -/
theorem postSave_verbatim (now : Nat) (s : String) (st : Store) (sess : Session)
    (su : SessionUser) (hu : sess.user = some su) (hs : s ≠ "") :
    postSave now false (some s) st sess =
      ({ st with images := st.images ++ [⟨su.id, s, now⟩] }, .redirect "/saved") ∧
    (∀ b c : Option String, b = none ∨ b = some "" → jsOr b c = c) ∧
    (∀ t : String, t ≠ "" → ∀ c : Option String, jsOr (some t) c = some t) := by
  refine ⟨?_, ?_, ?_⟩
  · simp [postSave, requireLogin, hu, postSaveHandler, jsOr, jsTruthy, hs]
  · intro b c hb
    rcases hb with hb | hb <;> simp [jsOr, jsTruthy, hb]
  · intro t ht c
    simp [jsOr, jsTruthy, ht]

/-- C9 witness: a whitespace-only URL is stored verbatim. -/
theorem postSave_verbatim_witness :
    postSave 4 false (some "  ") ⟨[], [], 0⟩ { user := some ⟨3, "eve"⟩, currentImage := some "u" } =
      (⟨[], [⟨3, "  ", 4⟩], 0⟩, .redirect "/saved") :=
  (postSave_verbatim 4 "  " ⟨[], [], 0⟩
    { user := some ⟨3, "eve"⟩, currentImage := some "u" } ⟨3, "eve"⟩ rfl (by decide)).1

/-- C2: a POST /login with a username non-empty after trimming looks the
user up by exact username; a first login (no record with that username)
appends exactly one User record, and a second login with the same username
against the resulting store (from any session) creates none; both establish
a session holding that user's id and username and answer a 302 redirect to
/home. -/
theorem postLogin_first_second (now now2 : Nat) (bodyUsername : Option String)
    (st : Store) (sess sess2 : Session)
    (hne : jsTrim (bodyUsername.getD "") ≠ "")
    (habs : st.users.find? (fun u => u.username == jsTrim (bodyUsername.getD "")) = none) :
    postLogin now false bodyUsername st sess =
      ({ st with
          users := st.users ++ [⟨st.nextId, jsTrim (bodyUsername.getD ""), now⟩],
          nextId := st.nextId + 1 },
       { sess with user := some ⟨st.nextId, jsTrim (bodyUsername.getD "")⟩ },
       .redirect "/home") ∧
    postLogin now2 false bodyUsername
        { st with
            users := st.users ++ [⟨st.nextId, jsTrim (bodyUsername.getD ""), now⟩],
            nextId := st.nextId + 1 } sess2 =
      ({ st with
          users := st.users ++ [⟨st.nextId, jsTrim (bodyUsername.getD ""), now⟩],
          nextId := st.nextId + 1 },
       { sess2 with user := some ⟨st.nextId, jsTrim (bodyUsername.getD "")⟩ },
       .redirect "/home") ∧
    status (.redirect "/home") = 302 := by
  refine ⟨?_, ?_, rfl⟩
  · simp [postLogin, hne, habs]
  · simp [postLogin, hne, List.find?_append, habs, List.find?]

/-- C2 witness: two logins of alice against an empty store: the first
creates the one record, the second none. -/
theorem postLogin_first_second_witness :
    postLogin 1 false (some " alice ") ⟨[], [], 0⟩ ⟨none, none⟩ =
      (⟨[⟨0, "alice", 1⟩], [], 1⟩, ⟨some ⟨0, "alice"⟩, none⟩, .redirect "/home") ∧
    postLogin 2 false (some " alice ") ⟨[⟨0, "alice", 1⟩], [], 1⟩ ⟨none, none⟩ =
      (⟨[⟨0, "alice", 1⟩], [], 1⟩, ⟨some ⟨0, "alice"⟩, none⟩, .redirect "/home") := by
  have h := postLogin_first_second 1 2 (some " alice ") ⟨[], [], 0⟩ ⟨none, none⟩
    ⟨none, none⟩ (by decide) rfl
  exact ⟨h.1.trans (by decide), h.2.1.trans (by decide)⟩

/-- C5: a GET /saved by a logged-in user renders exactly the images whose
user field is the session user's id, as a permutation of that filtered list
sorted by save time descending; three saves at strictly increasing times
come back in reverse chronological order, and a store failure renders an
empty list at the same view. -/
theorem getSaved_spec (st : Store) (sess : Session) (su : SessionUser)
    (hu : sess.user = some su) :
    getSaved false st sess =
      .render "saved"
        { images := sortSavedDesc (st.images.filter (fun i => i.user == su.id)) } ∧
    (sortSavedDesc (st.images.filter (fun i => i.user == su.id))).Perm
      (st.images.filter (fun i => i.user == su.id)) ∧
    List.Sorted savedAtGE (sortSavedDesc (st.images.filter (fun i => i.user == su.id))) ∧
    (∀ i1 i2 i3 : Image,
      i1.savedAt < i2.savedAt → i2.savedAt < i3.savedAt →
      st.images.filter (fun i => i.user == su.id) = [i1, i2, i3] →
      sortSavedDesc (st.images.filter (fun i => i.user == su.id)) = [i3, i2, i1]) ∧
    getSaved true st sess = .render "saved" { images := [] } := by
  refine ⟨?_, List.perm_insertionSort savedAtGE _, List.sorted_insertionSort savedAtGE _,
    ?_, ?_⟩
  · simp [getSaved, requireLogin, hu, getSavedHandler]
  · intro i1 i2 i3 h12 h23 hf
    have h13 : i1.savedAt < i3.savedAt := Nat.lt_trans h12 h23
    rw [hf]
    simp [sortSavedDesc, List.insertionSort, List.orderedInsert, savedAtGE,
      Nat.not_le.mpr h12, Nat.not_le.mpr h23, Nat.not_le.mpr h13]
  · simp [getSaved, requireLogin, hu, getSavedHandler]

/-- C5 witness: three images of user 7 saved at times 1 < 2 < 3 (another
user's image interleaved) are listed newest first. -/
theorem getSaved_spec_witness :
    getSaved false ⟨[], [⟨7, "a", 1⟩, ⟨7, "b", 2⟩, ⟨8, "x", 9⟩, ⟨7, "c", 3⟩], 0⟩
        { user := some ⟨7, "u"⟩, currentImage := none } =
      .render "saved" { images := [⟨7, "c", 3⟩, ⟨7, "b", 2⟩, ⟨7, "a", 1⟩] } := by
  have h := getSaved_spec ⟨[], [⟨7, "a", 1⟩, ⟨7, "b", 2⟩, ⟨8, "x", 9⟩, ⟨7, "c", 3⟩], 0⟩
    { user := some ⟨7, "u"⟩, currentImage := none } ⟨7, "u"⟩ rfl
  exact h.1.trans (by decide)

/-- C8: a line whose trimmed, lower-cased form is stop moves the controller
to Shutting Down and performs, in order, readline close, listener close,
data-store close, and only then the successful exit (the exit action comes
after both closes); any other non-empty line prints an invalid-command
message and stays Running with a fresh prompt; an empty line re-prompts
silently. -/
theorem cliStep_spec (line : String) :
    (jsToLower (jsTrim line) = "stop" →
      cliStep line =
        { phase := .shuttingDown, printed := some "Shutting down the server",
          reprompted := false,
          actions := [.readlineClose, .serverClose, .dbClose, .exitZero] } ∧
      (cliStep line).actions.indexOf .serverClose <
        (cliStep line).actions.indexOf .dbClose ∧
      (cliStep line).actions.indexOf .dbClose <
        (cliStep line).actions.indexOf .exitZero) ∧
    (jsToLower (jsTrim line) ≠ "stop" → jsToLower (jsTrim line) ≠ "" →
      cliStep line =
        { phase := .running,
          printed := some ("Invalid command: " ++ jsToLower (jsTrim line)),
          reprompted := true, actions := [] }) ∧
    (jsToLower (jsTrim line) = "" →
      cliStep line = { phase := .running, printed := none,
                       reprompted := true, actions := [] }) := by
  refine ⟨?_, ?_, ?_⟩
  · intro h
    have e : cliStep line =
        { phase := .shuttingDown, printed := some "Shutting down the server",
          reprompted := false,
          actions := [.readlineClose, .serverClose, .dbClose, .exitZero] } := by
      simp [cliStep, h]
    refine ⟨e, ?_, ?_⟩ <;> rw [e] <;> decide
  · intro h1 h2
    have hl : 0 < (jsToLower (jsTrim line)).length := length_pos_of_ne_empty h2
    simp [cliStep, h1, gt_iff_lt, hl]
  · intro h
    simp [cliStep, h]

/-- C8 witness: a mixed-case padded stop, an unknown command, and a
whitespace-only line. -/
theorem cliStep_spec_witness :
    cliStep "  StOp " =
      { phase := .shuttingDown, printed := some "Shutting down the server",
        reprompted := false,
        actions := [.readlineClose, .serverClose, .dbClose, .exitZero] } ∧
    cliStep " go " =
      { phase := .running, printed := some "Invalid command: go",
        reprompted := true, actions := [] } ∧
    cliStep "   " =
      { phase := .running, printed := none, reprompted := true, actions := [] } := by
  refine ⟨((cliStep_spec "  StOp ").1 (by decide)).1, ?_, (cliStep_spec "   ").2.2 (by decide)⟩
  exact ((cliStep_spec " go ").2.1 (by decide) (by decide)).trans (by decide)

end DogServer
